import Mathlib

/-!
Verification of the import-hook interception layer of `ls-trace-py`.

This file shallowly embeds the functions of
`ddtrace/internal/import_hooks/patch.py` and the configuration constants of
`ddtrace/vendor/lightstep/metrics_reporter.py`, and proves properties of
them.

Modelling conventions:

* A Python callable with observable effects is a function returning `Eff α`:
  a list of abstract event codes it emitted (its observable side effects, in
  order) plus an outcome in `Except Nat α` (normal return or a raised
  exception, exceptions identified by a numeric code).  Only exceptions that
  `except Exception` catches are modelled.
* The process-wide mutable globals touched by the patch controller
  (`_patched`, `importlib._bootstrap._find_and_load_unlocked`,
  `importlib.reload`, `__builtins__` entries) are gathered in a `PyState`
  record; each controller function is a state transformer.
* `sys.version_info` is a `List Nat` (major, minor, micro) compared with
  Python tuple comparison semantics (`pyTupLt` / `pyTupLe`).
* `wrapt.FunctionWrapper` objects are the `Func.wrapper` constructor; the
  identity of the wrapper callback is a numeric code, so distinct parties'
  wrappers are distinguishable.  `isinstance(f, wrapt.FunctionWrapper)` is
  `Func.isFunctionWrapper`, `f.__wrapped__` is `Func.wrappedAttr`.
-/

instance exceptDecEq {ε α : Type} [DecidableEq ε] [DecidableEq α] :
    DecidableEq (Except ε α) := fun a b =>
  match a, b with
  | .ok a, .ok b => if h : a = b then isTrue (by rw [h]) else isFalse (by simp [h])
  | .error a, .error b => if h : a = b then isTrue (by rw [h]) else isFalse (by simp [h])
  | .ok _, .error _ => isFalse (by simp)
  | .error _, .ok _ => isFalse (by simp)

/-- Result of running an effectful Python callable: the events it emitted,
in order, and its outcome (normal return or raised exception). -/
structure Eff (α : Type) where
  trace : List Nat
  out : Except Nat α
  deriving DecidableEq

/-- Embedding of `exec_and_call_hooks(module_name, wrapped, args, kwargs)`
(patch.py lines 64-77): `try: return wrapped(*args, **kwargs)` with a
`finally:` block that runs `hooks.call(module_name)` inside its own
`try/except Exception` so a dispatch failure is logged and swallowed.  The
wrapped call's events come first, then the dispatch's; the outcome is always
the wrapped call's outcome.  `args` stands for the whole argument tuple
(together with kwargs), of arbitrary type `β`; `hooksCall` is the registry's
dispatch entry point, abstract here. -/
def exec_and_call_hooks {β α : Type} (module_name : Option String)
    (wrapped : β → Eff α) (hooksCall : Option String → Eff Unit)
    (args : β) : Eff α :=
  let r := wrapped args
  let h := hooksCall module_name
  { trace := r.trace ++ h.trace, out := r.out }

/-- A module object as seen by `wrapped_reload`: `spec_name = some n` means
evaluating `module.__spec__.name` yields the string `n`; `none` means that
evaluation raises `AttributeError` (no `__spec__`, or `__spec__` is `None`).
Likewise `name_attr` for `module.__name__`. -/
structure PyModule where
  spec_name : Option String
  name_attr : Option String
  deriving DecidableEq

/-- The module-name extraction of `wrapped_reload` (patch.py lines 84-96):
`module_name = None`; on Python 3 try `args[0].__spec__.name`, falling back
on `AttributeError` to `args[0].__name__`; on Python 2 use
`args[0].__name__` directly; any exception (empty `args`, missing
`__name__`) leaves the name `None`. -/
def reload_module_name (py3 : Bool) (args : List PyModule) : Option String :=
  match args with
  | [] => none
  | m :: _ =>
    if py3 then
      match m.spec_name with
      | some n => some n
      | none => m.name_attr
    else m.name_attr

/-- Embedding of `wrapped_reload(wrapped, instance, args, kwargs)` (patch.py
lines 80-97): extract the module name best-effort, then
`exec_and_call_hooks(module_name, wrapped, args, kwargs)`. -/
def wrapped_reload {α : Type} (py3 : Bool) (wrapped : List PyModule → Eff α)
    (hooksCall : Option String → Eff Unit) (args : List PyModule) : Eff α :=
  exec_and_call_hooks (reload_module_name py3 args) wrapped hooksCall args

/-- Embedding of `wrapped_find_and_load_unlocked(wrapped, instance, args,
kwargs)` (patch.py lines 100-114): `module_name = args[0]`; if that raises
(empty `args`) the wrapper logs and directly returns
`wrapped(*args, **kwargs)` with no dispatch; otherwise it runs
`exec_and_call_hooks(module_name, wrapped, args, kwargs)`. -/
def wrapped_find_and_load_unlocked {α : Type}
    (wrapped : List String → Eff α) (hooksCall : Option String → Eff Unit)
    (args : List String) : Eff α :=
  match args with
  | [] => wrapped []
  | name :: _ => exec_and_call_hooks (some name) wrapped hooksCall args

/-- Embedding of `wrapped_import(wrapped, instance, args, kwargs)` (patch.py
lines 117-133): `module_name = args[0]`, on failure return the plain wrapped
call; then dispatch only when `module_name` is truthy (non-empty) and not a
key of `sys.modules` (here the list `sysModules`); otherwise return the
plain wrapped call. -/
def wrapped_import {α : Type} (sysModules : List String)
    (wrapped : List String → Eff α) (hooksCall : Option String → Eff Unit)
    (args : List String) : Eff α :=
  match args with
  | [] => wrapped []
  | name :: _ =>
    if name != "" && !(sysModules.contains name) then
      exec_and_call_hooks (some name) wrapped hooksCall args
    else
      wrapped args

/-- A concrete wrapped callable used by witnesses: emits event 1 and returns
7 normally. -/
def wrappedOkEx : List String → Eff Nat := fun _ => { trace := [1], out := Except.ok 7 }

/-- A concrete wrapped callable used by witnesses: emits event 3 and raises
exception 4. -/
def wrappedRaiseEx : List String → Eff Nat := fun _ => { trace := [3], out := Except.error 4 }

/-- A concrete hook-dispatch callable used by witnesses: emits event 2 and
itself raises exception 5. -/
def hooksCallEx : Option String → Eff Unit := fun _ => { trace := [2], out := Except.error 5 }

/-- Python tuple `<` on sequences of numbers: lexicographic, a proper prefix
is smaller.  This is how `sys.version_info` compares against the literal
tuples `(2, 7)`, `(3, 4)`, `(3, 8)` in patch.py; note that a 3-component
`version_info` such as `(3, 8, 0)` is strictly greater than `(3, 8)`. -/
def pyTupLt : List Nat → List Nat → Bool
  | [], [] => false
  | [], _ :: _ => true
  | _ :: _, [] => false
  | a :: as, b :: bs => a < b || (a == b && pyTupLt as bs)

/-- Python tuple `<=`: `<` or equal. -/
def pyTupLe (a b : List Nat) : Bool :=
  pyTupLt a b || a == b

/-- Modelled from the spec: `ddtrace.compat.PY3` (the `compat` module is not
under `src/`).  Per the spec's two "runtime eras", it is true exactly when
the runtime's major version is 3. -/
def PY3 (v : List Nat) : Bool :=
  v.headD 0 == 3

/-- A Python function object as stored at a patchable entry point: either an
original plain function (`base`, tagged with an identity code) or a
`wrapt.FunctionWrapper` created around an inner function by a wrapper
callback (tagged with the callback's identity code, so wrappers installed by
different parties are distinguishable). -/
inductive Func : Type where
  | base : Nat → Func
  | wrapper : Nat → Func → Func
  deriving DecidableEq

/-- Identity code of the `wrapped_find_and_load_unlocked` callback. -/
def findLoadHookId : Nat := 0

/-- Identity code of the `wrapped_reload` callback. -/
def reloadHookId : Nat := 1

/-- Identity code of the `wrapped_import` callback. -/
def importHookId : Nat := 2

/-- `isinstance(f, wrapt.FunctionWrapper)`. -/
def Func.isFunctionWrapper : Func → Bool
  | .wrapper _ _ => true
  | .base _ => false

/-- `f.__wrapped__`: the function inside a `wrapt.FunctionWrapper` (patch.py
only reads it after an `isinstance` check; on a plain function we return the
function itself, a case the code never reaches). -/
def Func.wrappedAttr : Func → Func
  | .wrapper _ f => f
  | .base n => .base n

/-- The process-wide mutable state patch.py manipulates: the `_patched`
flag and the four patchable entry points
(`importlib._bootstrap._find_and_load_unlocked`, `importlib.reload`,
`__builtins__` `__import__` and `reload`). -/
structure PyState where
  patched : Bool
  find_and_load_unlocked : Func
  importlib_reload : Func
  builtins_import : Func
  builtins_reload : Func
  deriving DecidableEq

/-- Embedding of `_patch()` (patch.py lines 140-174) on state `s` under
runtime version `v`: return unchanged if `_patched`; on Python 3 wrap
`_find_and_load_unlocked` and `importlib.reload` with
`wrapt.wrap_function_wrapper`; else if `sys.version_info >= (2, 7)` wrap the
`__builtins__` entries with `wrapt.FunctionWrapper`; finally set
`_patched = True` (which line 174 does on every branch). -/
def _patch (v : List Nat) (s : PyState) : PyState :=
  if s.patched then s
  else
    let s1 :=
      if PY3 v then
        { s with
          find_and_load_unlocked := Func.wrapper findLoadHookId s.find_and_load_unlocked,
          importlib_reload := Func.wrapper reloadHookId s.importlib_reload }
      else if pyTupLe [2, 7] v then
        { s with
          builtins_import := Func.wrapper importHookId s.builtins_import,
          builtins_reload := Func.wrapper reloadHookId s.builtins_reload }
      else s
    { s1 with patched := true }

/-- The restore statement of `_unpatch` for `_find_and_load_unlocked`
(patch.py lines 201-205): when the currently installed function is an
instance of `wrapt.FunctionWrapper`, set the entry point to its
`__wrapped__`. -/
def restoreFindAndLoad (s : PyState) : PyState :=
  if s.find_and_load_unlocked.isFunctionWrapper then
    { s with find_and_load_unlocked := s.find_and_load_unlocked.wrappedAttr }
  else s

/-- The restore statement of `_unpatch` for `importlib.reload` (patch.py
lines 206-207). -/
def restoreImportlibReload (s : PyState) : PyState :=
  if s.importlib_reload.isFunctionWrapper then
    { s with importlib_reload := s.importlib_reload.wrappedAttr }
  else s

/-- The restore statement of `_unpatch` for `__builtins__['__import__']`
(patch.py lines 212-213). -/
def restoreBuiltinsImport (s : PyState) : PyState :=
  if s.builtins_import.isFunctionWrapper then
    { s with builtins_import := s.builtins_import.wrappedAttr }
  else s

/-- The restore statement of `_unpatch` for `__builtins__['reload']`
(patch.py lines 214-215). -/
def restoreBuiltinsReload (s : PyState) : PyState :=
  if s.builtins_reload.isFunctionWrapper then
    { s with builtins_reload := s.builtins_reload.wrappedAttr }
  else s

/-- Embedding of `_unpatch()` (patch.py lines 188-215) on state `s` under
runtime version `v`: return unchanged if not `_patched`; set
`_patched = False` first (line 193); then, when
`(3, 4) <= sys.version_info <= (3, 8)`, restore each of the two importlib
entry points to its `__wrapped__` when the currently installed function is
an instance of `wrapt.FunctionWrapper`; otherwise, when
`sys.version_info >= (2, 7)`, do the same for the two `__builtins__`
entries. -/
def _unpatch (v : List Nat) (s : PyState) : PyState :=
  if !s.patched then s
  else if pyTupLe [3, 4] v && pyTupLe v [3, 8] then
    restoreImportlibReload (restoreFindAndLoad { s with patched := false })
  else if pyTupLe [2, 7] v then
    restoreBuiltinsReload (restoreBuiltinsImport { s with patched := false })
  else { s with patched := false }

/-- Embedding of `_patch()` with an explicit raise point: `failAt = some k`
means the `k`-th wrapping statement of the taken branch raises (wrapping can
raise, e.g. when `wrapt` cannot resolve the target), leaving the state as
partially updated so far and propagating the exception (second component
`true`).  With `failAt = none` this is exactly `_patch`.  Note that on a
raise, line 174 (`_patched = True`) is not reached. -/
def _patch_exc (v : List Nat) (failAt : Option Nat) (s : PyState) : PyState × Bool :=
  if s.patched then (s, false)
  else if PY3 v then
    if failAt == some 0 then (s, true)
    else
      let s1 := { s with find_and_load_unlocked := Func.wrapper findLoadHookId s.find_and_load_unlocked }
      if failAt == some 1 then (s1, true)
      else
        let s2 := { s1 with importlib_reload := Func.wrapper reloadHookId s1.importlib_reload }
        ({ s2 with patched := true }, false)
  else if pyTupLe [2, 7] v then
    if failAt == some 0 then (s, true)
    else
      let s1 := { s with builtins_import := Func.wrapper importHookId s.builtins_import }
      if failAt == some 1 then (s1, true)
      else
        let s2 := { s1 with builtins_reload := Func.wrapper reloadHookId s1.builtins_reload }
        ({ s2 with patched := true }, false)
  else ({ s with patched := true }, false)

/-- Embedding of `_unpatch()` with an explicit raise point: `failAt = some k`
means the `k`-th restoring statement of the taken branch raises (the restore
section starts at line 198, after `_patched = False` on line 193, so any
such raise finds the flag already cleared).  With `failAt = none` this is
exactly `_unpatch`. -/
def _unpatch_exc (v : List Nat) (failAt : Option Nat) (s : PyState) : PyState × Bool :=
  if !s.patched then (s, false)
  else if pyTupLe [3, 4] v && pyTupLe v [3, 8] then
    if failAt == some 0 then ({ s with patched := false }, true)
    else if failAt == some 1 then (restoreFindAndLoad { s with patched := false }, true)
    else (restoreImportlibReload (restoreFindAndLoad { s with patched := false }), false)
  else if pyTupLe [2, 7] v then
    if failAt == some 0 then ({ s with patched := false }, true)
    else if failAt == some 1 then (restoreBuiltinsImport { s with patched := false }, true)
    else (restoreBuiltinsReload (restoreBuiltinsImport { s with patched := false }), false)
  else ({ s with patched := false }, false)

/-- Embedding of the public `patch()` (patch.py lines 177-185): run
`_patch()` inside `try/except Exception`, so whatever exception `_patch`
raises is logged and swallowed; the resulting state is whatever `_patch`
left behind, and no exception ever reaches the caller (second component
always `false`). -/
def patch (v : List Nat) (failAt : Option Nat) (s : PyState) : PyState × Bool :=
  ((_patch_exc v failAt s).1, false)

/-- Embedding of the public `unpatch()` (patch.py lines 218-226): run
`_unpatch()` inside `try/except Exception`. -/
def unpatch (v : List Nat) (failAt : Option Nat) (s : PyState) : PyState × Bool :=
  ((_unpatch_exc v failAt s).1, false)

/-- Number of wrapper layers on a function object. -/
def Func.wrapperDepth : Func → Nat
  | .wrapper _ f => f.wrapperDepth + 1
  | .base _ => 0

/-- A baseline process state: unpatched, plain original functions (with
distinct identities) at all four entry points. -/
def sBase : PyState :=
  { patched := false, find_and_load_unlocked := Func.base 1, importlib_reload := Func.base 2,
    builtins_import := Func.base 3, builtins_reload := Func.base 4 }

/-- The state after `patch()` on Python 3.7.0: this layer's wrappers are
installed on the importlib entry points. -/
def sPatched3 : PyState := _patch [3, 7, 0] sBase

/-- The state after `patch()` on Python 2.7.18: this layer's wrappers are
installed on the `__builtins__` entry points. -/
def sPatched27 : PyState := _patch [2, 7, 18] sBase

/-- The state after a different party re-wrapped the already-wrapped loader
entry point with its own `wrapt.FunctionWrapper` (callback identity 10). -/
def sForeign : PyState :=
  { sPatched3 with
    find_and_load_unlocked := Func.wrapper 10 sPatched3.find_and_load_unlocked }

/-- What `_unpatch` actually does to one entry point of the branch it picks:
restore to `__wrapped__` exactly when the currently installed function is an
instance of `wrapt.FunctionWrapper` (any party's), else leave it alone. -/
def restoreEntry (f : Func) : Func :=
  if f.isFunctionWrapper then f.wrappedAttr else f

/-- A module whose `__spec__.name` is `"alpha"` and `__name__` is
`"beta"`. -/
def mSpec : PyModule := { spec_name := some "alpha", name_attr := some "beta" }

/-- A module with no usable `__spec__` whose `__name__` is `"beta"`. -/
def mNoSpec : PyModule := { spec_name := none, name_attr := some "beta" }

/-- A module on which both name extractions raise. -/
def mBroken : PyModule := { spec_name := none, name_attr := none }

/-- A concrete wrapped reload callable used by witnesses: emits event 6 and
returns 9 normally. -/
def wrappedReloadEx : List PyModule → Eff Nat := fun _ => { trace := [6], out := Except.ok 9 }

/-- Embedding of `environ.get(key, default)` over an abstract environment
`env` (metrics_reporter.py): the variable's value when set, else the
default. -/
def environ_get (env : String → Option String) (key d : String) : String :=
  (env key).getD d

/-- Embedding of `DEFAULT_METRICS_HOSTNAME` (metrics_reporter.py line 6):
`environ.get("LIGHTSTEP_METRICS_HOST", environ.get("LIGHTSTEP_HOST",
"ingest.lightstep.com"))`. -/
def DEFAULT_METRICS_HOSTNAME (env : String → Option String) : String :=
  environ_get env "LIGHTSTEP_METRICS_HOST"
    (environ_get env "LIGHTSTEP_HOST" "ingest.lightstep.com")

/-- Embedding of `DEFAULT_METRICS_PORT` (metrics_reporter.py line 7). -/
def DEFAULT_METRICS_PORT (env : String → Option String) : String :=
  environ_get env "LIGHTSTEP_METRICS_PORT" (environ_get env "LIGHTSTEP_PORT" "443")

/-- Embedding of `DEFAULT_METRICS_SECURE` (metrics_reporter.py line 8). -/
def DEFAULT_METRICS_SECURE (env : String → Option String) : String :=
  environ_get env "LIGHTSTEP_METRICS_SECURE" (environ_get env "LIGHTSTEP_SECURE" "1")

/-- Embedding of `DEFAULT_METRICS_PATH` (metrics_reporter.py line 9): a hard
constant, no environment lookup. -/
def DEFAULT_METRICS_PATH : String := "/metrics"

/-- Embedding of `TOKEN` (metrics_reporter.py line 10). -/
def TOKEN (env : String → Option String) : String :=
  environ_get env "LIGHTSTEP_ACCESS_TOKEN" "INVALID_TOKEN"

/-- A concrete environment used by witnesses: the metrics-specific host
variable and the generic port variable are set, nothing else. -/
def envEx : String → Option String := fun k =>
  if k == "LIGHTSTEP_METRICS_HOST" then some "metrics.example"
  else if k == "LIGHTSTEP_PORT" then some "8080"
  else none

/-- Claim C1: `exec_and_call_hooks` invokes the wrapped callable with exactly
the given arguments and returns its result unchanged; if the wrapped
callable raises, that exception propagates unchanged; the hook dispatch on
the module name runs after the wrapped call and before the wrapper returns
(its events follow the wrapped call's events in the trace); and an exception
raised by the dispatch itself never propagates (the outcome is still the
wrapped call's). -/
theorem c1_exec_and_call_hooks_wrapper_semantics {β α : Type}
    (module_name : Option String) (wrapped : β → Eff α)
    (hooksCall : Option String → Eff Unit) (args : β) :
    (∀ v, (wrapped args).out = Except.ok v →
      (exec_and_call_hooks module_name wrapped hooksCall args).out = Except.ok v) ∧
    (∀ e, (wrapped args).out = Except.error e →
      (exec_and_call_hooks module_name wrapped hooksCall args).out = Except.error e) ∧
    (exec_and_call_hooks module_name wrapped hooksCall args).trace
      = (wrapped args).trace ++ (hooksCall module_name).trace ∧
    (∀ e, (hooksCall module_name).out = Except.error e →
      (exec_and_call_hooks module_name wrapped hooksCall args).out = (wrapped args).out) := by
  refine ⟨?_, ?_, rfl, ?_⟩ <;> intro e h <;> simp [exec_and_call_hooks, h]

/-- Witness for C1 at concrete inputs: a normally-returning wrapped callable
keeps its value even though the dispatch raises, and a raising wrapped
callable keeps its exception. -/
theorem c1_witness :
    (exec_and_call_hooks (some "mod") wrappedOkEx hooksCallEx ["mod"]).out = Except.ok 7 ∧
    (exec_and_call_hooks (some "mod") wrappedRaiseEx hooksCallEx ["mod"]).out = Except.error 4 ∧
    (exec_and_call_hooks (some "mod") wrappedOkEx hooksCallEx ["mod"]).trace = [1, 2] := by
  refine ⟨?_, ?_, ?_⟩
  · exact (c1_exec_and_call_hooks_wrapper_semantics (some "mod") wrappedOkEx hooksCallEx ["mod"]).1 7 rfl
  · exact (c1_exec_and_call_hooks_wrapper_semantics (some "mod") wrappedRaiseEx hooksCallEx ["mod"]).2.1 4 rfl
  · decide

/-- Restoring the loader entry point does not touch the `_patched` flag. -/
theorem restoreFindAndLoad_patched (s : PyState) :
    (restoreFindAndLoad s).patched = s.patched := by
  unfold restoreFindAndLoad
  split <;> rfl

/-- Restoring `importlib.reload` does not touch the `_patched` flag. -/
theorem restoreImportlibReload_patched (s : PyState) :
    (restoreImportlibReload s).patched = s.patched := by
  unfold restoreImportlibReload
  split <;> rfl

/-- Restoring `__builtins__['__import__']` does not touch the `_patched`
flag. -/
theorem restoreBuiltinsImport_patched (s : PyState) :
    (restoreBuiltinsImport s).patched = s.patched := by
  unfold restoreBuiltinsImport
  split <;> rfl

/-- Restoring `__builtins__['reload']` does not touch the `_patched`
flag. -/
theorem restoreBuiltinsReload_patched (s : PyState) :
    (restoreBuiltinsReload s).patched = s.patched := by
  unfold restoreBuiltinsReload
  split <;> rfl

/-- `_patch` leaves the `_patched` flag set on every branch (line 174 runs
unconditionally once the guard is passed, and the guard only returns early
when the flag is already set). -/
theorem patch_sets_patched (v : List Nat) (s : PyState) : (_patch v s).patched = true := by
  unfold _patch
  split
  · assumption
  · rfl

/-- `_patch` on an already-patched state is the identity. -/
theorem patch_of_patched (v : List Nat) (s : PyState) (h : s.patched = true) :
    _patch v s = s := by
  simp [_patch, h]

/-- Claim C2 (counterexample): on Python 3.7.0, with a foreign
`wrapt.FunctionWrapper` (callback identity 10) re-wrapped on top of this
layer's loader wrapper, `_unpatch` does not skip the entry point: the
`isinstance` check passes and the entry point is set to the foreign
wrapper's `__wrapped__`, i.e. this layer's own wrapper — the other party's
function is not left in place. -/
theorem c2_counterexample :
    sForeign.find_and_load_unlocked
      = Func.wrapper 10 (Func.wrapper findLoadHookId (Func.base 1)) ∧
    (_unpatch [3, 7, 0] sForeign).find_and_load_unlocked
      = Func.wrapper findLoadHookId (Func.base 1) ∧
    (_unpatch [3, 7, 0] sForeign).find_and_load_unlocked
      ≠ sForeign.find_and_load_unlocked := by
  decide

/-- Claim C2 (amended): during `_unpatch` from a patched state, each entry
point of the version-selected branch is restored to its `__wrapped__` iff
the currently installed function is an instance of `wrapt.FunctionWrapper`
(a type check, not an identity check against this layer's wrapper: a
foreign `wrapt` wrapper is unwrapped one layer too); a non-wrapper
replacement is left in place, and the other branch's entry points are
untouched. -/
theorem c2_unpatch_restores_iff_isinstance (v : List Nat) (s : PyState)
    (h : s.patched = true) :
    ((pyTupLe [3, 4] v && pyTupLe v [3, 8]) = true →
      (_unpatch v s).find_and_load_unlocked = restoreEntry s.find_and_load_unlocked ∧
      (_unpatch v s).importlib_reload = restoreEntry s.importlib_reload ∧
      (_unpatch v s).builtins_import = s.builtins_import ∧
      (_unpatch v s).builtins_reload = s.builtins_reload) ∧
    ((pyTupLe [3, 4] v && pyTupLe v [3, 8]) = false → pyTupLe [2, 7] v = true →
      (_unpatch v s).builtins_import = restoreEntry s.builtins_import ∧
      (_unpatch v s).builtins_reload = restoreEntry s.builtins_reload ∧
      (_unpatch v s).find_and_load_unlocked = s.find_and_load_unlocked ∧
      (_unpatch v s).importlib_reload = s.importlib_reload) := by
  constructor
  · intro h38
    cases hf : s.find_and_load_unlocked <;> cases hr : s.importlib_reload <;>
      simp [_unpatch, restoreFindAndLoad, restoreImportlibReload, restoreEntry, h, h38, hf,
        hr, Func.isFunctionWrapper, Func.wrappedAttr]
  · intro h38 h27
    cases hf : s.builtins_import <;> cases hr : s.builtins_reload <;>
      simp [_unpatch, restoreBuiltinsImport, restoreBuiltinsReload, restoreEntry, h, h38,
        h27, hf, hr, Func.isFunctionWrapper, Func.wrappedAttr]

/-- Witness for the amended C2 at concrete inputs: on 3.5.0 the wrapped
loader is restored to its original; on 2.7.18 the wrapped `__import__` is
restored to its original. -/
theorem c2_witness :
    (_unpatch [3, 5, 0] sPatched3).find_and_load_unlocked = Func.base 1 ∧
    (_unpatch [2, 7, 18] sPatched27).builtins_import = Func.base 3 := by
  constructor
  · have h := (c2_unpatch_restores_iff_isinstance [3, 5, 0] sPatched3 (by decide)).1 (by decide)
    rw [h.1]; decide
  · have h := (c2_unpatch_restores_iff_isinstance [2, 7, 18] sPatched27 (by decide)).2
      (by decide) (by decide)
    rw [h.1]; decide

/-- Claim C3: `_patch` is idempotent — on an already-patched state it is the
identity, a second application changes nothing, and from an unpatched state
two applications leave exactly one additional wrapper layer on each entry
point wrapped by the version-selected branch (no nested double-wrapping). -/
theorem c3_patch_idempotent (v : List Nat) (s : PyState) :
    (s.patched = true → _patch v s = s) ∧
    _patch v (_patch v s) = _patch v s ∧
    (s.patched = false → PY3 v = true →
      (_patch v (_patch v s)).find_and_load_unlocked.wrapperDepth
          = s.find_and_load_unlocked.wrapperDepth + 1 ∧
      (_patch v (_patch v s)).importlib_reload.wrapperDepth
          = s.importlib_reload.wrapperDepth + 1) ∧
    (s.patched = false → PY3 v = false → pyTupLe [2, 7] v = true →
      (_patch v (_patch v s)).builtins_import.wrapperDepth
          = s.builtins_import.wrapperDepth + 1 ∧
      (_patch v (_patch v s)).builtins_reload.wrapperDepth
          = s.builtins_reload.wrapperDepth + 1) := by
  refine ⟨fun h => patch_of_patched v s h,
    patch_of_patched v (_patch v s) (patch_sets_patched v s), ?_, ?_⟩
  · intro h0 h3
    rw [patch_of_patched v (_patch v s) (patch_sets_patched v s)]
    simp [_patch, h0, h3, Func.wrapperDepth]
  · intro h0 h3 h27
    rw [patch_of_patched v (_patch v s) (patch_sets_patched v s)]
    simp [_patch, h0, h3, h27, Func.wrapperDepth]

/-- Witness for C3 at concrete inputs: patching an already-patched state is
the identity, and double-patching from the base state yields wrapper depth
exactly one on both variants' entry points. -/
theorem c3_witness :
    _patch [3, 7, 0] sPatched3 = sPatched3 ∧
    (_patch [3, 7, 0] (_patch [3, 7, 0] sBase)).find_and_load_unlocked.wrapperDepth
      = sBase.find_and_load_unlocked.wrapperDepth + 1 ∧
    (_patch [2, 7, 18] (_patch [2, 7, 18] sBase)).builtins_import.wrapperDepth
      = sBase.builtins_import.wrapperDepth + 1 := by
  refine ⟨(c3_patch_idempotent [3, 7, 0] sPatched3).1 (by decide),
    ((c3_patch_idempotent [3, 7, 0] sBase).2.2.1 (by decide) (by decide)).1,
    ((c3_patch_idempotent [2, 7, 18] sBase).2.2.2 (by decide) (by decide) (by decide)).1⟩

/-- Claim C4 (code bug, evaluated): Python tuple comparison makes
`(3, 8, 0) > (3, 8)`, so on any 3.8.x runtime `_patch` wraps the importlib
entry points (PY3 branch) but `_unpatch`'s guard
`(3, 4) <= sys.version_info <= (3, 8)` fails and nothing is restored: both
wrappers remain installed after `_unpatch`, although the state is marked
unpatched.  On 3.7.0 and 2.7.18 the round trip does restore the original
entry points by identity, as the claim states. -/
theorem c4_unpatch_restores_bug_at_3_8 :
    pyTupLe [3, 4] [3, 8, 0] = true ∧
    pyTupLe [3, 8, 0] [3, 8] = false ∧
    (_patch [3, 8, 0] sBase).find_and_load_unlocked
      = Func.wrapper findLoadHookId (Func.base 1) ∧
    (_unpatch [3, 8, 0] (_patch [3, 8, 0] sBase)).find_and_load_unlocked
      = Func.wrapper findLoadHookId (Func.base 1) ∧
    (_unpatch [3, 8, 0] (_patch [3, 8, 0] sBase)).importlib_reload
      = Func.wrapper reloadHookId (Func.base 2) ∧
    (_unpatch [3, 8, 0] (_patch [3, 8, 0] sBase)).patched = false ∧
    _unpatch [3, 7, 0] (_patch [3, 7, 0] sBase) = sBase ∧
    _unpatch [2, 7, 18] (_patch [2, 7, 18] sBase) = sBase := by
  decide

/-- Claim C5 (counterexample): on Python 3.7.0, when the restore section of
`_unpatch` raises at its first statement, the exception propagates out of
`_unpatch` (to be swallowed by `unpatch`), yet the state observed afterwards
is already Unpatched — the flag was cleared on line 193, before restoring —
while this layer's wrapper is still installed. -/
theorem c5_counterexample :
    sPatched3.patched = true ∧
    (_unpatch_exc [3, 7, 0] (some 0) sPatched3).2 = true ∧
    (_unpatch_exc [3, 7, 0] (some 0) sPatched3).1.patched = false ∧
    (_unpatch_exc [3, 7, 0] (some 0) sPatched3).1.find_and_load_unlocked
      = Func.wrapper findLoadHookId (Func.base 1) := by
  decide

/-- Claim C5 (amended): `_unpatch` marks the state Unpatched *before*
restoring the wrapped entry points: from any patched state the resulting
flag is cleared whether or not restoration raises, and when restoration
raises at its first statement the state observed afterwards is Unpatched
with every entry point unchanged (wrappers still installed). -/
theorem c5_unpatch_clears_flag_before_restoring (v : List Nat) (failAt : Option Nat)
    (s : PyState) (h : s.patched = true) :
    (_unpatch_exc v failAt s).1.patched = false ∧
    ((pyTupLe [3, 4] v && pyTupLe v [3, 8]) = true → failAt = some 0 →
      (_unpatch_exc v failAt s).1 = { s with patched := false } ∧
      (_unpatch_exc v failAt s).2 = true) := by
  constructor
  · unfold _unpatch_exc
    repeat' split
    all_goals
      first
        | rfl
        | simp_all [restoreFindAndLoad_patched, restoreImportlibReload_patched,
            restoreBuiltinsImport_patched, restoreBuiltinsReload_patched]
  · intro h38 hf
    simp [_unpatch_exc, h, h38, hf]

/-- Witness for the amended C5 at concrete inputs. -/
theorem c5_witness :
    (_unpatch_exc [3, 6, 1] (some 1) sPatched3).1.patched = false ∧
    (_unpatch_exc [3, 6, 1] (some 0) sPatched3).1 = { sPatched3 with patched := false } := by
  refine ⟨(c5_unpatch_clears_flag_before_restoring [3, 6, 1] (some 1) sPatched3 (by decide)).1,
    ((c5_unpatch_clears_flag_before_restoring [3, 6, 1] (some 0) sPatched3 (by decide)).2
      (by decide) rfl).1⟩

/-- Claim C6: the public `patch()` and `unpatch()` never propagate an
exception to their caller, for every runtime version, every internal raise
point and every starting state (the `try/except Exception` boundary
swallows everything `_patch`/`_unpatch` raise); and `unpatch()` when never
installed is a no-op that raises nothing. -/
theorem c6_patch_unpatch_never_raise (v : List Nat) (failAt : Option Nat) (s : PyState) :
    (patch v failAt s).2 = false ∧
    (unpatch v failAt s).2 = false ∧
    (s.patched = false → unpatch v failAt s = (s, false)) := by
  refine ⟨rfl, rfl, fun h => ?_⟩
  simp [unpatch, _unpatch_exc, h]

/-- Witness for C6 at concrete inputs: `unpatch()` on a never-installed
state is a no-op raising nothing, even when the restore section would have
raised. -/
theorem c6_witness :
    unpatch [3, 7, 0] (some 0) sBase = (sBase, false) := by
  exact (c6_patch_unpatch_never_raise [3, 7, 0] (some 0) sBase).2.2 (by decide)

/-- Claim C7: on the reload path the module name prefers `__spec__.name`
when the module object exposes one, falls back to `__name__` when it does
not, and any extraction failure (no argument, or both attribute lookups
raising) yields the unresolved sentinel `none`; in every case the
underlying reload runs with the original arguments, keeps its outcome, and
dispatch follows it with the resolved name. -/
theorem c7_reload_name_resolution {α : Type} (args : List PyModule)
    (wrapped : List PyModule → Eff α) (hooksCall : Option String → Eff Unit) :
    (∀ m rest n, args = m :: rest → m.spec_name = some n →
      reload_module_name true args = some n) ∧
    (∀ m rest, args = m :: rest → m.spec_name = none →
      reload_module_name true args = m.name_attr) ∧
    (args = [] → reload_module_name true args = none) ∧
    (wrapped_reload true wrapped hooksCall args).out = (wrapped args).out ∧
    (wrapped_reload true wrapped hooksCall args).trace
      = (wrapped args).trace ++ (hooksCall (reload_module_name true args)).trace := by
  refine ⟨?_, ?_, ?_, rfl, rfl⟩
  · rintro m rest n rfl hs
    simp [reload_module_name, hs]
  · rintro m rest rfl hs
    simp [reload_module_name, hs]
  · rintro rfl
    rfl

/-- Witness for C7 at concrete inputs: the spec name wins over `__name__`,
`__name__` is the fallback, a module on which both extractions raise gives
the sentinel, and the reload still proceeds on it with its outcome kept. -/
theorem c7_witness :
    reload_module_name true [mSpec] = some "alpha" ∧
    reload_module_name true [mNoSpec] = some "beta" ∧
    reload_module_name true [mBroken] = none ∧
    (wrapped_reload true wrappedReloadEx hooksCallEx [mBroken]).out = Except.ok 9 := by
  refine ⟨?_, ?_, ?_, ?_⟩
  · exact (c7_reload_name_resolution [mSpec] wrappedReloadEx hooksCallEx).1 mSpec [] "alpha"
      rfl rfl
  · have h := (c7_reload_name_resolution [mNoSpec] wrappedReloadEx hooksCallEx).2.1 mNoSpec []
      rfl rfl
    rw [h]
    rfl
  · have h := (c7_reload_name_resolution [mBroken] wrappedReloadEx hooksCallEx).2.1 mBroken []
      rfl rfl
    rw [h]
    rfl
  · exact (c7_reload_name_resolution [mBroken] wrappedReloadEx hooksCallEx).2.2.2.1

/-- Claim C8 (counterexample): the empty string name is not in the module
cache, yet the legacy import wrapper performs no hook dispatch for it —
`if module_name and module_name not in sys.modules` tests truthiness, and
the empty name is falsy.  The result is exactly the plain wrapped call;
dispatching would have appended the dispatch's event 2. -/
theorem c8_counterexample :
    ([] : List String).contains "" = false ∧
    wrapped_import [] wrappedOkEx hooksCallEx [""] = wrappedOkEx [""] ∧
    (wrapped_import [] wrappedOkEx hooksCallEx [""]).trace = [1] ∧
    (wrappedOkEx [""]).trace ++ (hooksCallEx (some "")).trace = [1, 2] := by
  decide

/-- Claim C8 (amended): the legacy import wrapper dispatches exactly for a
truthy (non-empty) first-argument name that is not yet a key of
`sys.modules`: a cached name yields the plain wrapped call with no
dispatch, an uncached non-empty name yields the wrapped call followed by
dispatch, and the falsy empty name always yields the plain wrapped call. -/
theorem c8_import_dispatch_on_uncached {α : Type} (sysModules : List String)
    (name : String) (rest : List String) (wrapped : List String → Eff α)
    (hooksCall : Option String → Eff Unit) :
    (name ∈ sysModules →
      wrapped_import sysModules wrapped hooksCall (name :: rest) = wrapped (name :: rest)) ∧
    (name ∉ sysModules → name ≠ "" →
      wrapped_import sysModules wrapped hooksCall (name :: rest)
        = exec_and_call_hooks (some name) wrapped hooksCall (name :: rest)) ∧
    (name = "" →
      wrapped_import sysModules wrapped hooksCall (name :: rest) = wrapped (name :: rest)) := by
  refine ⟨?_, ?_, ?_⟩
  · intro hc
    simp [wrapped_import, hc]
  · intro hc hn
    simp [wrapped_import, hc, hn]
  · intro hn
    subst hn
    simp [wrapped_import]

/-- Witness for the amended C8 at concrete inputs: a cached name gets no
dispatch (trace stays the wrapped call's), an uncached non-empty name gets
dispatch after the wrapped call. -/
theorem c8_witness :
    wrapped_import ["alpha"] wrappedOkEx hooksCallEx ["alpha"] = wrappedOkEx ["alpha"] ∧
    (wrapped_import [] wrappedOkEx hooksCallEx ["alpha"]).trace = [1, 2] := by
  constructor
  · exact (c8_import_dispatch_on_uncached ["alpha"] "alpha" [] wrappedOkEx hooksCallEx).1
      (by decide)
  · have h := (c8_import_dispatch_on_uncached [] "alpha" [] wrappedOkEx hooksCallEx).2.1
      (by decide) (by decide)
    rw [h]
    decide

/-- Claim C9: each metrics-client setting resolves through its three-step
fallback chain at import time: the metrics-specific environment variable if
set, else the generic variable if set, else the hard default
(`"ingest.lightstep.com"` for host, `"443"` for port, `"1"` for the secure
flag), for every assignment of environment variables. -/
theorem c9_metrics_config_fallback_chain (env : String → Option String) :
    (∀ x, env "LIGHTSTEP_METRICS_HOST" = some x → DEFAULT_METRICS_HOSTNAME env = x) ∧
    (∀ x, env "LIGHTSTEP_METRICS_HOST" = none → env "LIGHTSTEP_HOST" = some x →
      DEFAULT_METRICS_HOSTNAME env = x) ∧
    (env "LIGHTSTEP_METRICS_HOST" = none → env "LIGHTSTEP_HOST" = none →
      DEFAULT_METRICS_HOSTNAME env = "ingest.lightstep.com") ∧
    (∀ x, env "LIGHTSTEP_METRICS_PORT" = some x → DEFAULT_METRICS_PORT env = x) ∧
    (∀ x, env "LIGHTSTEP_METRICS_PORT" = none → env "LIGHTSTEP_PORT" = some x →
      DEFAULT_METRICS_PORT env = x) ∧
    (env "LIGHTSTEP_METRICS_PORT" = none → env "LIGHTSTEP_PORT" = none →
      DEFAULT_METRICS_PORT env = "443") ∧
    (∀ x, env "LIGHTSTEP_METRICS_SECURE" = some x → DEFAULT_METRICS_SECURE env = x) ∧
    (∀ x, env "LIGHTSTEP_METRICS_SECURE" = none → env "LIGHTSTEP_SECURE" = some x →
      DEFAULT_METRICS_SECURE env = x) ∧
    (env "LIGHTSTEP_METRICS_SECURE" = none → env "LIGHTSTEP_SECURE" = none →
      DEFAULT_METRICS_SECURE env = "1") := by
  refine ⟨?_, ?_, ?_, ?_, ?_, ?_, ?_, ?_, ?_⟩ <;> intros <;>
    simp [DEFAULT_METRICS_HOSTNAME, DEFAULT_METRICS_PORT, DEFAULT_METRICS_SECURE,
      environ_get, *]

/-- Witness for C9 at a concrete environment with the metrics-specific host
set, only the generic port set, and no secure variables: each setting takes
the first defined link of its chain. -/
theorem c9_witness :
    DEFAULT_METRICS_HOSTNAME envEx = "metrics.example" ∧
    DEFAULT_METRICS_PORT envEx = "8080" ∧
    DEFAULT_METRICS_SECURE envEx = "1" := by
  refine ⟨?_, ?_, ?_⟩
  · exact (c9_metrics_config_fallback_chain envEx).1 "metrics.example" (by decide)
  · exact (c9_metrics_config_fallback_chain envEx).2.2.2.2.1 "8080" (by decide) (by decide)
  · exact (c9_metrics_config_fallback_chain envEx).2.2.2.2.2.2.2.2 (by decide) (by decide)

/-- Claim C10: when no first positional argument can be extracted, both load
wrappers return exactly the plain wrapped call on the original arguments —
no hook dispatch at all, not even with the unresolved sentinel — whereas the
reload path in the same situation still dispatches with the sentinel
`none`. -/
theorem c10_load_paths_skip_dispatch_without_name {α : Type}
    (sysModules : List String) (wrapped : List String → Eff α)
    (wrappedR : List PyModule → Eff α) (hooksCall : Option String → Eff Unit) :
    wrapped_find_and_load_unlocked wrapped hooksCall [] = wrapped [] ∧
    wrapped_import sysModules wrapped hooksCall [] = wrapped [] ∧
    (wrapped_reload true wrappedR hooksCall []).trace
      = (wrappedR []).trace ++ (hooksCall none).trace :=
  ⟨rfl, rfl, rfl⟩

